import Mathlib

/-!
Shallow embedding of the MJ Figurines backend (src/main.py, src/schemas.py).

Modelling choices:
* Python floats carrying money values are modelled exactly as rationals (`ℚ`);
  decimal literals such as `49.99` become `4999/100`.
* Python's `round(x, 2)` (round-half-to-even) is `round2` below.
* The MongoDB document store is a `Store` with one list per collection,
  ordered by insertion, wrapped in `Option` for the process-wide optional
  handle `db` (`None` when the database is unavailable).  `find_one({}, sort
  [("_id", 1)])` is the head of the insertion-ordered list, and
  `find_one({"name": n})` is `List.find?` on the name.
* Pydantic's `EmailStr` delegates to the external email-validator library, so
  the syntactic-validity predicate is a parameter `ve : String → Bool` of the
  handlers that use it.
* Constructing the pydantic `Order` model inside the handler validates the
  fields declared in src/schemas.py; on failure pydantic raises a
  `ValidationError`, which FastAPI (having no handler registered for it)
  surfaces as an HTTP 500 internal server error.  `HandlerError` captures the
  two ways the handler can abort: an explicit `HTTPException` and an
  uncaught model `ValidationError`.
* Python's `str.strip()` is `pyStrip` below (drop leading and trailing
  whitespace), and string truthiness (`if s:`) is `s ≠ ""`.
-/

namespace MJFig

/-- Python's `str.strip()` with no argument: remove leading and trailing
whitespace characters. -/
def pyStrip (s : String) : String :=
  String.mk (((s.data.dropWhile Char.isWhitespace).reverse.dropWhile Char.isWhitespace).reverse)

/-- Round a rational to the nearest integer, ties to even: the tie-breaking
behaviour of Python 3's built-in `round`. -/
def roundHalfEven (x : ℚ) : ℤ :=
  if x - ⌊x⌋ < 1/2 then ⌊x⌋
  else if 1/2 < x - ⌊x⌋ then ⌊x⌋ + 1
  else if ⌊x⌋ % 2 = 0 then ⌊x⌋ else ⌊x⌋ + 1

/-- Python's `round(x, 2)`: round to 2 decimal places. -/
def round2 (x : ℚ) : ℚ := (roundHalfEven (x * 100) : ℚ) / 100

/-- `schemas.Figurine`: the product record schema (src/schemas.py lines 41-53). -/
structure Figurine where
  name : String
  width_cm : ℚ
  height_cm : ℚ
  material : String
  price_usd : ℚ
  images : List String
  description : String
  customizable_base : Bool
deriving DecidableEq

/-- `schemas.Order`: the persisted order record (src/schemas.py lines 55-70).
Field constraints of the pydantic model are enforced by `orderFieldErrors`. -/
structure OrderRec where
  product_id : Option String
  custom_name : String
  quantity : ℤ
  customer_name : String
  customer_email : String
  shipping_address : String
  unit_price_usd : ℚ
  total_usd : ℚ
  notes : Option String
deriving DecidableEq

/-- The document store: one insertion-ordered list per collection used by the
application ("figurine" and "order"). -/
structure Store where
  figurine : List Figurine
  order : List OrderRec
deriving DecidableEq

/-- `main.OrderIn`: the request body of POST /api/order (src/main.py lines
115-121).  All fields are plain types; no constraint is declared on them. -/
structure OrderIn where
  custom_name : String
  quantity : ℤ
  customer_name : String
  customer_email : String
  shipping_address : String
  notes : Option String
deriving DecidableEq

/-- `main.OrderOut`: the response body of POST /api/order (src/main.py lines
123-125). -/
structure OrderOut where
  order_id : String
  total_usd : ℚ
deriving DecidableEq

/-- The two ways `create_order` aborts: an explicit `HTTPException(status,
detail)`, or a pydantic `ValidationError` (listing the failing fields) raised
while constructing the `Order` model. -/
inductive HandlerError where
  | http (status : Nat) (detail : String)
  | modelValidation (fields : List String)
deriving DecidableEq

deriving instance DecidableEq for Except

/-- HTTP status of the response produced by an aborted handler: the status of
the `HTTPException`, or 500 for an uncaught pydantic `ValidationError`
(FastAPI converts any unhandled exception into a 500 response). -/
def responseStatus : HandlerError → Nat
  | .http s _ => s
  | .modelValidation _ => 500

/-- A 400-class (client error) HTTP status. -/
def is4xx (n : Nat) : Prop := 400 ≤ n ∧ n < 500

instance (n : Nat) : Decidable (is4xx n) := by unfold is4xx; infer_instance

/-- Validation of the pydantic `Order` model fields (src/schemas.py lines
55-70), in declaration order: `custom_name` has `min_length=1, max_length=24`;
`quantity` has `ge=1, le=10`; `customer_email` is `EmailStr` (checked by the
predicate `ve`); `shipping_address` has `min_length=8`; `unit_price_usd` and
`total_usd` have `ge=0`.  Returns the names of the failing fields, empty when
the model validates. -/
def orderFieldErrors (ve : String → Bool) (o : OrderRec) : List String :=
  (if o.custom_name.length < 1 ∨ 24 < o.custom_name.length then ["custom_name"] else []) ++
  (if o.quantity < 1 ∨ 10 < o.quantity then ["quantity"] else []) ++
  (if ve o.customer_email then [] else ["customer_email"]) ++
  (if o.shipping_address.length < 8 then ["shipping_address"] else []) ++
  (if o.unit_price_usd < 0 then ["unit_price_usd"] else []) ++
  (if o.total_usd < 0 then ["total_usd"] else [])

/-- Construction of the pydantic `Order` model: returns the record when every
field constraint holds, otherwise raises `ValidationError` with the failing
fields. -/
def mkOrder (ve : String → Bool) (o : OrderRec) : Except HandlerError OrderRec :=
  if orderFieldErrors ve o = [] then .ok o
  else .error (.modelValidation (orderFieldErrors ve o))

/-- Modelled from the spec: `database.create_document` (database.py is not
under src/) "wraps insertion of a typed record into a named collection,
returning a generated identifier" — instantiated at the "order" collection.
The generated ObjectId is abstracted as the insertion index rendered as a
string. -/
def create_document_order (s : Store) (o : OrderRec) : String × Store :=
  (toString s.order.length, { s with order := s.order ++ [o] })

/-- Modelled from the spec: `database.create_document` instantiated at the
"figurine" collection (see `create_document_order`). -/
def create_document_figurine (s : Store) (f : Figurine) : String × Store :=
  (toString s.figurine.length, { s with figurine := s.figurine ++ [f] })

/-- The fixed product name used by startup seeding and the defaults. -/
def fixedName : String := "Michael Jackson Collectible Figurine"

/-- The `Figurine` literal inserted by startup seeding (src/main.py lines
66-80). -/
def seededFigurine : Figurine :=
  { name := "Michael Jackson Collectible Figurine"
    width_cm := 10
    height_cm := 30
    material := "Plastic"
    price_usd := 4999/100
    images := ["https://images.unsplash.com/photo-1520974697809-9343d26503bc?q=80&w=1200&auto=format&fit=crop"]
    description := "Premium detailed figurine inspired by the King of Pop. 10 cm wide, 30 cm tall, molded in durable plastic with a customizable nameplate on the base."
    customizable_base := true }

/-- The static fallback `Figurine` literal returned by GET /api/product when
no record is available (src/main.py lines 88-102; textually the same literal
as the seeded one). -/
def defaultFigurine : Figurine :=
  { name := "Michael Jackson Collectible Figurine"
    width_cm := 10
    height_cm := 30
    material := "Plastic"
    price_usd := 4999/100
    images := ["https://images.unsplash.com/photo-1520974697809-9343d26503bc?q=80&w=1200&auto=format&fit=crop"]
    description := "Premium detailed figurine inspired by the King of Pop. 10 cm wide, 30 cm tall, molded in durable plastic with a customizable nameplate on the base."
    customizable_base := true }

/-- `main.seed_figurine_product` (src/main.py lines 59-81): on startup, when
the database handle exists, look up a figurine by the fixed name and insert
the seeded product only when none is found. -/
def seed_figurine_product (db : Option Store) : Option Store :=
  match db with
  | none => none
  | some s =>
    match s.figurine.find? (fun f => f.name == fixedName) with
    | some _ => some s
    | none => some (create_document_figurine s seededFigurine).2

/-- `main.get_product` (src/main.py lines 83-113): return the
earliest-inserted figurine document, or the static fallback when the store is
unavailable or empty.  The handler also returns the store it leaves behind,
to make the absence of writes statable. -/
def get_product (db : Option Store) : Figurine × Option Store :=
  let doc := match db with
    | some s => s.figurine.head?
    | none => none
  match doc with
  | none => (defaultFigurine, db)
  | some d => (d, db)

/-- The engraving fee term of the pricing computation (src/main.py line 140):
`4.0 if payload.custom_name.strip() else 0.0`. -/
def engraving_fee (custom_name : String) : ℚ :=
  if pyStrip custom_name ≠ "" then 4 else 0

/-- The product document `create_order` looks up (src/main.py line 136):
`db["figurine"].find_one({}, sort=[("_id", 1)]) if db is not None else None`. -/
def productDoc (db : Option Store) : Option Figurine :=
  match db with
  | some s => s.figurine.head?
  | none => none

/-- The unit price `create_order` uses (src/main.py line 137): the `price_usd`
of the looked-up product document, or 49.99 when there is none. -/
def storedUnitPrice (db : Option Store) : ℚ :=
  match productDoc db with
  | some d => d.price_usd
  | none => 4999/100

/-- The total computed by `create_order` (src/main.py lines 139-142):
`round(unit_price * quantity + engraving_fee + 6.99, 2)`. -/
def orderTotal (payload : OrderIn) (db : Option Store) : ℚ :=
  round2 (storedUnitPrice db * (payload.quantity : ℚ) + engraving_fee payload.custom_name + 699/100)

/-- The field values of the `Order` model constructed by `create_order`
(src/main.py lines 144-154).  The MongoDB ObjectId of the product document is
abstracted as a fixed placeholder string; only its presence matters. -/
def builtOrder (payload : OrderIn) (db : Option Store) : OrderRec :=
  { product_id := (productDoc db).map (fun _ => "object-id")
    custom_name := pyStrip payload.custom_name
    quantity := payload.quantity
    customer_name := payload.customer_name
    customer_email := payload.customer_email
    shipping_address := payload.shipping_address
    unit_price_usd := storedUnitPrice db
    total_usd := orderTotal payload db
    notes := payload.notes }

/-- `main.create_order` (src/main.py lines 127-161).  Returns the handler
outcome together with the store state it leaves behind.  `ve` is the
email-validator predicate backing `EmailStr` (see module comment). -/
def create_order (ve : String → Bool) (payload : OrderIn) (db : Option Store) :
    Except HandlerError OrderOut × Option Store :=
  if (pyStrip payload.custom_name).length = 0 ∨ 24 < (pyStrip payload.custom_name).length then
    (.error (.http 400 "Custom name must be 1-24 characters."), db)
  else if payload.quantity < 1 ∨ 10 < payload.quantity then
    (.error (.http 400 "Quantity must be between 1 and 10."), db)
  else
    match mkOrder ve (builtOrder payload db) with
    | .error e => (.error e, db)
    | .ok order =>
      match db with
      | some s =>
        let res := create_document_order s order
        (.ok { order_id := res.1, total_usd := orderTotal payload db }, some res.2)
      | none => (.ok { order_id := "demo-order", total_usd := orderTotal payload db }, none)

/-- Number of figurine documents carrying the fixed product name. -/
def countFixed (db : Option Store) : Nat :=
  match db with
  | none => 0
  | some s => (s.figurine.filter (fun f => f.name == fixedName)).length

/-- A concrete stand-in for the email-validator syntax check, used to
instantiate the `ve` parameter on concrete inputs. -/
def sampleEmailValid (s : String) : Bool := s.data.contains '@'

/-- A concrete well-formed order payload. -/
def sampleOrder : OrderIn :=
  { custom_name := "Alice"
    quantity := 2
    customer_name := "Alice Smith"
    customer_email := "alice@example.com"
    shipping_address := "221B Baker Street, London"
    notes := none }

/-- A concrete payload whose only flaw is a syntactically invalid email. -/
def badEmailOrder : OrderIn :=
  { custom_name := "Alice"
    quantity := 1
    customer_name := "Alice Smith"
    customer_email := "not-an-email"
    shipping_address := "221B Baker Street, London"
    notes := none }

/-- A concrete payload whose only flaw is a 5-character shipping address. -/
def shortAddressOrder : OrderIn :=
  { custom_name := "Bob"
    quantity := 2
    customer_name := "Bob Jones"
    customer_email := "bob@example.com"
    shipping_address := "short"
    notes := none }

/-- A concrete payload whose custom name trims to the empty string. -/
def badNameOrder : OrderIn :=
  { custom_name := "   "
    quantity := 2
    customer_name := "Cleo Frost"
    customer_email := "cleo@example.com"
    shipping_address := "10 Downing Street, London"
    notes := none }

/-- A concrete payload whose quantity is out of range. -/
def badQtyOrder : OrderIn :=
  { custom_name := "Cleo"
    quantity := 11
    customer_name := "Cleo Frost"
    customer_email := "cleo@example.com"
    shipping_address := "10 Downing Street, London"
    notes := none }

/-- The empty document store. -/
def emptyStore : Store := { figurine := [], order := [] }

/-! Helper lemmas about the embedded definitions. -/

theorem roundHalfEven_nonneg (x : ℚ) (hx : 0 ≤ x) : 0 ≤ roundHalfEven x := by
  have h0 : (0 : ℤ) ≤ ⌊x⌋ := Int.floor_nonneg.mpr hx
  unfold roundHalfEven
  split_ifs <;> omega

theorem round2_nonneg (x : ℚ) (hx : 0 ≤ x) : 0 ≤ round2 x := by
  have h := roundHalfEven_nonneg (x * 100) (by positivity)
  unfold round2
  have h2 : (0 : ℚ) ≤ (roundHalfEven (x * 100) : ℚ) := by exact_mod_cast h
  positivity

theorem pyStrip_ne_empty {s : String} (h : (pyStrip s).length ≠ 0) : pyStrip s ≠ "" := by
  intro he
  rw [he] at h
  simp at h

theorem engraving_fee_eq_four {s : String} (h : (pyStrip s).length ≠ 0) :
    engraving_fee s = 4 := by
  unfold engraving_fee
  rw [if_pos (pyStrip_ne_empty h)]

theorem mkOrder_eq_ok (ve : String → Bool) (o : OrderRec)
    (h : orderFieldErrors ve o = []) : mkOrder ve o = .ok o := by
  unfold mkOrder
  rw [if_pos h]

theorem mkOrder_eq_err (ve : String → Bool) (o : OrderRec)
    (h : orderFieldErrors ve o ≠ []) :
    mkOrder ve o = .error (.modelValidation (orderFieldErrors ve o)) := by
  unfold mkOrder
  rw [if_neg h]

theorem create_order_name_fail (ve : String → Bool) (p : OrderIn) (db : Option Store)
    (h : (pyStrip p.custom_name).length = 0 ∨ 24 < (pyStrip p.custom_name).length) :
    create_order ve p db = (.error (.http 400 "Custom name must be 1-24 characters."), db) := by
  unfold create_order
  rw [if_pos h]

theorem create_order_qty_fail (ve : String → Bool) (p : OrderIn) (db : Option Store)
    (hn : ¬ ((pyStrip p.custom_name).length = 0 ∨ 24 < (pyStrip p.custom_name).length))
    (hq : p.quantity < 1 ∨ 10 < p.quantity) :
    create_order ve p db = (.error (.http 400 "Quantity must be between 1 and 10."), db) := by
  unfold create_order
  rw [if_neg hn, if_pos hq]

theorem orderFieldErrors_builtOrder (ve : String → Bool) (p : OrderIn) (db : Option Store)
    (hn1 : (pyStrip p.custom_name).length ≠ 0) (hn2 : (pyStrip p.custom_name).length ≤ 24)
    (hq1 : 1 ≤ p.quantity) (hq2 : p.quantity ≤ 10) (hprice : 0 ≤ storedUnitPrice db) :
    orderFieldErrors ve (builtOrder p db) =
      (if ve p.customer_email then [] else ["customer_email"]) ++
        (if p.shipping_address.length < 8 then ["shipping_address"] else []) := by
  have hfee : (0 : ℚ) ≤ engraving_fee p.custom_name := by
    unfold engraving_fee
    split_ifs <;> norm_num
  have hqc : (0 : ℚ) ≤ (p.quantity : ℚ) := by exact_mod_cast (by omega : (0 : ℤ) ≤ p.quantity)
  have ht : 0 ≤ orderTotal p db := by
    apply round2_nonneg
    have hsub : (0 : ℚ) ≤ storedUnitPrice db * (p.quantity : ℚ) := mul_nonneg hprice hqc
    nlinarith
  have c1 : ¬ ((pyStrip p.custom_name).length < 1 ∨ 24 < (pyStrip p.custom_name).length) := by
    omega
  have c2 : ¬ (p.quantity < 1 ∨ 10 < p.quantity) := by omega
  have c5 : ¬ (storedUnitPrice db < 0) := not_lt.mpr hprice
  have c6 : ¬ (orderTotal p db < 0) := not_lt.mpr ht
  unfold orderFieldErrors
  simp only [builtOrder]
  rw [if_neg c1, if_neg c2, if_neg c5, if_neg c6]
  simp

theorem create_order_model_error (ve : String → Bool) (p : OrderIn) (db : Option Store)
    (hn1 : (pyStrip p.custom_name).length ≠ 0) (hn2 : (pyStrip p.custom_name).length ≤ 24)
    (hq1 : 1 ≤ p.quantity) (hq2 : p.quantity ≤ 10) (hprice : 0 ≤ storedUnitPrice db)
    (hne : (if ve p.customer_email then ([] : List String) else ["customer_email"]) ++
        (if p.shipping_address.length < 8 then ["shipping_address"] else []) ≠ []) :
    create_order ve p db =
      (.error (.modelValidation
        ((if ve p.customer_email then [] else ["customer_email"]) ++
          (if p.shipping_address.length < 8 then ["shipping_address"] else []))), db) := by
  have hmk := mkOrder_eq_err ve (builtOrder p db)
    (by rw [orderFieldErrors_builtOrder ve p db hn1 hn2 hq1 hq2 hprice]; exact hne)
  rw [orderFieldErrors_builtOrder ve p db hn1 hn2 hq1 hq2 hprice] at hmk
  unfold create_order
  rw [if_neg (by omega), if_neg (by omega), hmk]

theorem create_order_valid_none (ve : String → Bool) (p : OrderIn)
    (hn1 : (pyStrip p.custom_name).length ≠ 0) (hn2 : (pyStrip p.custom_name).length ≤ 24)
    (hq1 : 1 ≤ p.quantity) (hq2 : p.quantity ≤ 10)
    (hemail : ve p.customer_email = true) (hship : 8 ≤ p.shipping_address.length) :
    create_order ve p none = (.ok { order_id := "demo-order", total_usd := orderTotal p none }, none) := by
  have hprice : 0 ≤ storedUnitPrice none := by unfold storedUnitPrice productDoc; norm_num
  have hmk := mkOrder_eq_ok ve (builtOrder p none)
    (by
      rw [orderFieldErrors_builtOrder ve p none hn1 hn2 hq1 hq2 hprice]
      rw [if_pos hemail, if_neg (not_lt.mpr hship)]
      rfl)
  unfold create_order
  rw [if_neg (by omega), if_neg (by omega), hmk]

theorem create_order_modelValidation_inv (ve : String → Bool) (p : OrderIn)
    (db : Option Store) (fs : List String)
    (h : (create_order ve p db).1 = .error (.modelValidation fs)) :
    fs = orderFieldErrors ve (builtOrder p db) := by
  unfold create_order at h
  by_cases h1 : (pyStrip p.custom_name).length = 0 ∨ 24 < (pyStrip p.custom_name).length
  · rw [if_pos h1] at h
    simp at h
  rw [if_neg h1] at h
  by_cases h2 : p.quantity < 1 ∨ 10 < p.quantity
  · rw [if_pos h2] at h
    simp at h
  rw [if_neg h2] at h
  by_cases h3 : orderFieldErrors ve (builtOrder p db) = []
  · rw [mkOrder_eq_ok ve _ h3] at h
    cases db <;> simp at h
  · rw [mkOrder_eq_err ve _ h3] at h
    simp at h
    exact h.symm

theorem shipping_mem_orderFieldErrors (ve : String → Bool) (o : OrderRec) :
    "shipping_address" ∈ orderFieldErrors ve o ↔ o.shipping_address.length < 8 := by
  unfold orderFieldErrors
  split_ifs <;> simp_all

theorem email_mem_orderFieldErrors (ve : String → Bool) (o : OrderRec)
    (h : ve o.customer_email = false) : "customer_email" ∈ orderFieldErrors ve o := by
  unfold orderFieldErrors
  split_ifs <;> simp_all

theorem seed_some_found (s : Store)
    (h : (s.figurine.find? (fun f => f.name == fixedName)).isSome) :
    seed_figurine_product (some s) = some s := by
  simp only [seed_figurine_product]
  cases hf : s.figurine.find? (fun f => f.name == fixedName) with
  | none => rw [hf] at h; simp at h
  | some f => rfl

theorem seed_some_not_found (s : Store)
    (h : s.figurine.find? (fun f => f.name == fixedName) = none) :
    seed_figurine_product (some s) =
      some { s with figurine := s.figurine ++ [seededFigurine] } := by
  simp only [seed_figurine_product, create_document_figurine]
  rw [h]

theorem seeded_matches : (seededFigurine.name == fixedName) = true := by decide

theorem find?_seeded_append (l : List Figurine)
    (h : l.find? (fun f => f.name == fixedName) = none) :
    (l ++ [seededFigurine]).find? (fun f => f.name == fixedName) = some seededFigurine := by
  rw [List.find?_append, h]
  simp [seeded_matches]

theorem filter_fixed_of_find?_none (l : List Figurine)
    (h : l.find? (fun f => f.name == fixedName) = none) :
    l.filter (fun f => f.name == fixedName) = [] := by
  rw [List.filter_eq_nil_iff]
  intro a ha
  have := List.find?_eq_none.mp h a ha
  simp_all

theorem mkOrder_error_shape (ve : String → Bool) (o : OrderRec) (e : HandlerError)
    (h : mkOrder ve o = .error e) : e = .modelValidation (orderFieldErrors ve o) := by
  unfold mkOrder at h
  split_ifs at h
  exact (Except.error.injEq _ _).mp h.symm

/-! Theorems settling the claims. -/

/-- C2: for every order payload that passes the custom-name validation
(trimmed length in [1,24]), the engraving fee added by `create_order` is
exactly 4.0; the 0.0 branch of the conditional fee is unreachable under that
precondition. -/
theorem claim_C2_engraving_fee_unconditional (s : String)
    (h1 : (pyStrip s).length ≠ 0) (_h2 : (pyStrip s).length ≤ 24) :
    engraving_fee s = 4 ∧ engraving_fee s ≠ 0 := by
  refine ⟨engraving_fee_eq_four h1, ?_⟩
  rw [engraving_fee_eq_four h1]
  norm_num

theorem claim_C2_witness : engraving_fee "Alice" = 4 ∧ engraving_fee "Alice" ≠ 0 :=
  claim_C2_engraving_fee_unconditional "Alice" (by decide) (by decide)

/-- C5: for every valid order payload, when the document store is unavailable
(`db` is `None`), POST /api/order returns the sentinel non-persistent order
identifier "demo-order" and a `total_usd` computed from the default unit
price 49.99, rather than an error. -/
theorem claim_C5_store_unavailable_fallback (ve : String → Bool) (p : OrderIn)
    (hn1 : (pyStrip p.custom_name).length ≠ 0) (hn2 : (pyStrip p.custom_name).length ≤ 24)
    (hq1 : 1 ≤ p.quantity) (hq2 : p.quantity ≤ 10)
    (hemail : ve p.customer_email = true) (hship : 8 ≤ p.shipping_address.length) :
    create_order ve p none =
      (.ok { order_id := "demo-order",
             total_usd := round2 (4999/100 * (p.quantity : ℚ) + 4 + 699/100) }, none) := by
  rw [create_order_valid_none ve p hn1 hn2 hq1 hq2 hemail hship]
  simp only [orderTotal, storedUnitPrice, productDoc, engraving_fee_eq_four hn1]

theorem claim_C5_witness :
    create_order sampleEmailValid sampleOrder none =
      (.ok { order_id := "demo-order",
             total_usd := round2 (4999/100 * (sampleOrder.quantity : ℚ) + 4 + 699/100) }, none) :=
  claim_C5_store_unavailable_fallback sampleEmailValid sampleOrder
    (by decide) (by decide) (by decide) (by decide) (by decide) (by decide)

/-- C6: when no product record exists (store unavailable or empty),
GET /api/product returns the fixed default product (name "Michael Jackson
Collectible Figurine", price_usd 49.99) and performs no write to storage,
leaving the store unchanged. -/
theorem claim_C6_get_product_default (db : Option Store)
    (h : db = none ∨ ∃ s, db = some s ∧ s.figurine = []) :
    get_product db = (defaultFigurine, db) ∧
      defaultFigurine.name = "Michael Jackson Collectible Figurine" ∧
      defaultFigurine.price_usd = 4999/100 := by
  refine ⟨?_, rfl, rfl⟩
  rcases h with h | ⟨s, h, hs⟩ <;> subst h
  · rfl
  · simp [get_product, hs]

theorem claim_C6_witness :
    get_product none = (defaultFigurine, none) ∧
      defaultFigurine.name = "Michael Jackson Collectible Figurine" ∧
      defaultFigurine.price_usd = 4999/100 :=
  claim_C6_get_product_default none (Or.inl rfl)

/-- C7: startup seeding is idempotent: running the seeding routine twice
(from any store state) yields the same store as running it once, and never
increases the number of records with the fixed name beyond one; a record is
inserted only when none with that name exists. -/
theorem claim_C7_seeding_idempotent (db : Option Store) :
    seed_figurine_product (seed_figurine_product db) = seed_figurine_product db ∧
    countFixed (seed_figurine_product db) ≤ max (countFixed db) 1 ∧
    (countFixed db ≤ 1 → countFixed (seed_figurine_product (seed_figurine_product db)) ≤ 1) ∧
    (∀ s, db = some s → (s.figurine.find? (fun f => f.name == fixedName)).isSome →
      seed_figurine_product db = db) := by
  cases db with
  | none => simp [seed_figurine_product, countFixed]
  | some s =>
    cases hf : s.figurine.find? (fun f => f.name == fixedName) with
    | some f =>
      have hse := seed_some_found s (by rw [hf]; rfl)
      refine ⟨by rw [hse, hse], by rw [hse]; exact le_max_left _ _,
        fun h => by rw [hse, hse]; exact h, fun s2 heq hsome => hse⟩
    | none =>
      have h0 : countFixed (some s) = 0 := by
        simp [countFixed, filter_fixed_of_find?_none s.figurine hf]
      have hse := seed_some_not_found s hf
      have hf2 : (({ s with figurine := s.figurine ++ [seededFigurine] } : Store).figurine.find?
          (fun f => f.name == fixedName)).isSome := by
        rw [show ({ s with figurine := s.figurine ++ [seededFigurine] } : Store).figurine =
          s.figurine ++ [seededFigurine] from rfl, find?_seeded_append s.figurine hf]
        rfl
      have hse2 := seed_some_found _ hf2
      have h1 : countFixed (some { s with figurine := s.figurine ++ [seededFigurine] }) = 1 := by
        simp only [countFixed, List.filter_append, filter_fixed_of_find?_none s.figurine hf]
        simp [List.filter, seeded_matches]
      refine ⟨?_, ?_, ?_, ?_⟩
      · rw [hse, hse2]
      · rw [hse, h1, h0]
        norm_num
      · intro _
        rw [hse, hse2, h1]
      · intro s2 heq hsome
        cases heq
        rw [hf] at hsome
        simp at hsome

theorem claim_C7_witness :
    seed_figurine_product (seed_figurine_product (some emptyStore)) =
        seed_figurine_product (some emptyStore) ∧
      countFixed (seed_figurine_product (some emptyStore)) ≤ max (countFixed (some emptyStore)) 1 ∧
      countFixed (seed_figurine_product (seed_figurine_product (some emptyStore))) ≤ 1 :=
  ⟨(claim_C7_seeding_idempotent (some emptyStore)).1,
   (claim_C7_seeding_idempotent (some emptyStore)).2.1,
   (claim_C7_seeding_idempotent (some emptyStore)).2.2.1 (by decide)⟩

/-- C1: for every order payload that passes validation, the quantity lies in
[1,10] and the total_usd returned by POST /api/order equals
round(p * q + 4.0 + 6.99, 2), where p is the unit price used by the handler
(`storedUnitPrice`: the earliest-inserted figurine's price_usd, or 49.99 when
no product record exists). -/
theorem claim_C1_total_formula (ve : String → Bool) (p : OrderIn) (db db2 : Option Store)
    (out : OrderOut) (h : create_order ve p db = (.ok out, db2)) :
    1 ≤ p.quantity ∧ p.quantity ≤ 10 ∧
      out.total_usd = round2 (storedUnitPrice db * (p.quantity : ℚ) + 4 + 699/100) := by
  by_cases h1 : (pyStrip p.custom_name).length = 0 ∨ 24 < (pyStrip p.custom_name).length
  · rw [create_order_name_fail ve p db h1] at h
    simp at h
  by_cases h2 : p.quantity < 1 ∨ 10 < p.quantity
  · rw [create_order_qty_fail ve p db h1 h2] at h
    simp at h
  refine ⟨by omega, by omega, ?_⟩
  unfold create_order at h
  rw [if_neg h1, if_neg h2] at h
  cases hmk : mkOrder ve (builtOrder p db) with
  | error e =>
    rw [hmk] at h
    simp at h
  | ok o =>
    rw [hmk] at h
    have htot : out.total_usd = orderTotal p db := by
      cases db with
      | none =>
        simp only [Prod.mk.injEq, Except.ok.injEq] at h
        rw [← h.1]
      | some s =>
        simp only [create_document_order, Prod.mk.injEq, Except.ok.injEq] at h
        rw [← h.1]
    rw [htot]
    simp only [orderTotal,
      engraving_fee_eq_four (show (pyStrip p.custom_name).length ≠ 0 by omega)]

theorem claim_C1_witness :
    1 ≤ sampleOrder.quantity ∧ sampleOrder.quantity ≤ 10 ∧
      ({ order_id := "demo-order", total_usd := orderTotal sampleOrder none } : OrderOut).total_usd =
        round2 (storedUnitPrice none * (sampleOrder.quantity : ℚ) + 4 + 699/100) :=
  claim_C1_total_formula sampleEmailValid sampleOrder none none _
    (create_order_valid_none sampleEmailValid sampleOrder
      (by decide) (by decide) (by decide) (by decide) (by decide) (by decide))

/-- C8: POST /api/order rejects with status 400 and the distinct custom-name
reason every payload whose custom_name has trimmed length 0 or greater than
24, and never rejects with that reason a payload whose trimmed custom_name
length is in [1,24] (including exactly 1 and exactly 24). -/
theorem claim_C8_custom_name_bounds (ve : String → Bool) (p : OrderIn) (db : Option Store) :
    ((pyStrip p.custom_name).length = 0 ∨ 24 < (pyStrip p.custom_name).length →
      create_order ve p db = (.error (.http 400 "Custom name must be 1-24 characters."), db)) ∧
    (1 ≤ (pyStrip p.custom_name).length → (pyStrip p.custom_name).length ≤ 24 →
      (create_order ve p db).1 ≠ .error (.http 400 "Custom name must be 1-24 characters.")) := by
  refine ⟨create_order_name_fail ve p db, ?_⟩
  intro hl hu
  have h1 : ¬ ((pyStrip p.custom_name).length = 0 ∨ 24 < (pyStrip p.custom_name).length) := by
    omega
  unfold create_order
  rw [if_neg h1]
  by_cases h2 : p.quantity < 1 ∨ 10 < p.quantity
  · rw [if_pos h2]
    simp
  · rw [if_neg h2]
    cases hmk : mkOrder ve (builtOrder p db) with
    | error e =>
      rw [mkOrder_error_shape ve _ e hmk]
      simp
    | ok o =>
      cases db <;> simp

theorem claim_C8_witness :
    create_order sampleEmailValid badNameOrder none =
        (.error (.http 400 "Custom name must be 1-24 characters."), none) ∧
      (create_order sampleEmailValid sampleOrder none).1 ≠
        .error (.http 400 "Custom name must be 1-24 characters.") :=
  ⟨(claim_C8_custom_name_bounds sampleEmailValid badNameOrder none).1 (by decide),
   (claim_C8_custom_name_bounds sampleEmailValid sampleOrder none).2 (by decide) (by decide)⟩

/-- C9: POST /api/order rejects with status 400 and a descriptive reason
every payload whose quantity is less than 1 or greater than 10 — with the
distinct quantity reason whenever the custom-name check passes — and never
rejects with the quantity reason a payload whose quantity is in [1,10]
(including exactly 1 and exactly 10). -/
theorem claim_C9_quantity_bounds (ve : String → Bool) (p : OrderIn) (db : Option Store) :
    ((p.quantity < 1 ∨ 10 < p.quantity) →
      ∃ d, create_order ve p db = (.error (.http 400 d), db)) ∧
    ((p.quantity < 1 ∨ 10 < p.quantity) →
      1 ≤ (pyStrip p.custom_name).length → (pyStrip p.custom_name).length ≤ 24 →
      create_order ve p db = (.error (.http 400 "Quantity must be between 1 and 10."), db)) ∧
    (1 ≤ p.quantity → p.quantity ≤ 10 →
      (create_order ve p db).1 ≠ .error (.http 400 "Quantity must be between 1 and 10.")) := by
  refine ⟨?_, ?_, ?_⟩
  · intro hq
    by_cases h1 : (pyStrip p.custom_name).length = 0 ∨ 24 < (pyStrip p.custom_name).length
    · exact ⟨_, create_order_name_fail ve p db h1⟩
    · exact ⟨_, create_order_qty_fail ve p db h1 hq⟩
  · intro hq hl hu
    exact create_order_qty_fail ve p db (by omega) hq
  · intro hq1 hq2
    unfold create_order
    by_cases h1 : (pyStrip p.custom_name).length = 0 ∨ 24 < (pyStrip p.custom_name).length
    · rw [if_pos h1]
      simp
    · rw [if_neg h1, if_neg (show ¬ (p.quantity < 1 ∨ 10 < p.quantity) by omega)]
      cases hmk : mkOrder ve (builtOrder p db) with
      | error e =>
        rw [mkOrder_error_shape ve _ e hmk]
        simp
      | ok o =>
        cases db <;> simp

theorem claim_C9_witness :
    create_order sampleEmailValid badQtyOrder none =
        (.error (.http 400 "Quantity must be between 1 and 10."), none) ∧
      (create_order sampleEmailValid sampleOrder none).1 ≠
        .error (.http 400 "Quantity must be between 1 and 10.") :=
  ⟨(claim_C9_quantity_bounds sampleEmailValid badQtyOrder none).2.1
     (by decide) (by decide) (by decide),
   (claim_C9_quantity_bounds sampleEmailValid sampleOrder none).2.2 (by decide) (by decide)⟩

/-- C10: a payload failing an explicit validation rule (trimmed custom name
length outside [1,24], or quantity outside [1,10]) makes `create_order` raise
a 400 before any order insertion, leaving the document store unchanged; the
custom-name check fires first, so a payload violating both rules is rejected
with the custom-name reason. -/
theorem claim_C10_validation_before_effects (ve : String → Bool) (p : OrderIn)
    (db : Option Store) :
    (((pyStrip p.custom_name).length = 0 ∨ 24 < (pyStrip p.custom_name).length) ∨
        (p.quantity < 1 ∨ 10 < p.quantity) →
      (create_order ve p db).2 = db ∧
        ∃ d, (create_order ve p db).1 = .error (.http 400 d)) ∧
    (((pyStrip p.custom_name).length = 0 ∨ 24 < (pyStrip p.custom_name).length) →
      (create_order ve p db).1 = .error (.http 400 "Custom name must be 1-24 characters.")) := by
  constructor
  · intro h
    by_cases h1 : (pyStrip p.custom_name).length = 0 ∨ 24 < (pyStrip p.custom_name).length
    · rw [create_order_name_fail ve p db h1]
      exact ⟨rfl, _, rfl⟩
    · have hq : p.quantity < 1 ∨ 10 < p.quantity := by
        rcases h with h | h
        · exact absurd h h1
        · exact h
      rw [create_order_qty_fail ve p db h1 hq]
      exact ⟨rfl, _, rfl⟩
  · intro h1
    rw [create_order_name_fail ve p db h1]

theorem claim_C10_witness :
    (create_order sampleEmailValid badNameOrder (some emptyStore)).2 = some emptyStore ∧
    (create_order sampleEmailValid badNameOrder (some emptyStore)).1 =
      .error (.http 400 "Custom name must be 1-24 characters.") :=
  ⟨((claim_C10_validation_before_effects sampleEmailValid badNameOrder (some emptyStore)).1
     (by decide)).1,
   (claim_C10_validation_before_effects sampleEmailValid badNameOrder (some emptyStore)).2
     (by decide)⟩

/-- C3 counterexample: a payload whose only flaw is a syntactically invalid
email is not rejected with a 400-class status: the `Order`-model validation
error surfaces as HTTP 500. -/
theorem claim_C3_counterexample :
    sampleEmailValid badEmailOrder.customer_email = false ∧
    (create_order sampleEmailValid badEmailOrder none).1 =
      .error (.modelValidation ["customer_email"]) ∧
    ¬ is4xx (responseStatus (.modelValidation ["customer_email"])) := by
  refine ⟨by decide, ?_, by decide⟩
  have h := create_order_model_error sampleEmailValid badEmailOrder none
    (by decide) (by decide) (by decide) (by decide)
    (by norm_num [storedUnitPrice, productDoc]) (by decide)
  rw [h]
  decide

/-- C3 (amended): every payload whose customer_email fails the syntax check
is rejected — POST /api/order never succeeds on it — but not always with a
400-class status: when the custom-name and quantity checks pass, the
rejection is an uncaught `Order`-model validation error naming
customer_email, surfaced as HTTP 500. -/
theorem claim_C3_email_rejection (ve : String → Bool) (p : OrderIn) (db : Option Store)
    (h : ve p.customer_email = false) :
    (create_order ve p db).1 = .error (.http 400 "Custom name must be 1-24 characters.") ∨
    (create_order ve p db).1 = .error (.http 400 "Quantity must be between 1 and 10.") ∨
    (create_order ve p db).1 =
        .error (.modelValidation (orderFieldErrors ve (builtOrder p db))) ∧
      "customer_email" ∈ orderFieldErrors ve (builtOrder p db) ∧
      responseStatus (.modelValidation (orderFieldErrors ve (builtOrder p db))) = 500 := by
  by_cases h1 : (pyStrip p.custom_name).length = 0 ∨ 24 < (pyStrip p.custom_name).length
  · left
    rw [create_order_name_fail ve p db h1]
  by_cases h2 : p.quantity < 1 ∨ 10 < p.quantity
  · right; left
    rw [create_order_qty_fail ve p db h1 h2]
  right; right
  have hmem : "customer_email" ∈ orderFieldErrors ve (builtOrder p db) :=
    email_mem_orderFieldErrors ve _ h
  have hne : orderFieldErrors ve (builtOrder p db) ≠ [] := by
    intro h0
    rw [h0] at hmem
    simp at hmem
  refine ⟨?_, hmem, rfl⟩
  unfold create_order
  rw [if_neg h1, if_neg h2, mkOrder_eq_err ve _ hne]

theorem claim_C3_witness :
    (create_order sampleEmailValid badEmailOrder none).1 =
        .error (.http 400 "Custom name must be 1-24 characters.") ∨
      (create_order sampleEmailValid badEmailOrder none).1 =
        .error (.http 400 "Quantity must be between 1 and 10.") ∨
      (create_order sampleEmailValid badEmailOrder none).1 =
          .error (.modelValidation
            (orderFieldErrors sampleEmailValid (builtOrder badEmailOrder none))) ∧
        "customer_email" ∈ orderFieldErrors sampleEmailValid (builtOrder badEmailOrder none) ∧
        responseStatus (.modelValidation
          (orderFieldErrors sampleEmailValid (builtOrder badEmailOrder none))) = 500 :=
  claim_C3_email_rejection sampleEmailValid badEmailOrder none (by decide)

/-- C4 counterexample: a payload whose only flaw is a 5-character shipping
address is not rejected with a 400-class status: the `Order`-model validation
error surfaces as HTTP 500. -/
theorem claim_C4_counterexample :
    shortAddressOrder.shipping_address.length < 8 ∧
    (create_order sampleEmailValid shortAddressOrder none).1 =
      .error (.modelValidation ["shipping_address"]) ∧
    ¬ is4xx (responseStatus (.modelValidation ["shipping_address"])) := by
  refine ⟨by decide, ?_, by decide⟩
  have h := create_order_model_error sampleEmailValid shortAddressOrder none
    (by decide) (by decide) (by decide) (by decide)
    (by norm_num [storedUnitPrice, productDoc]) (by decide)
  rw [h]
  decide

/-- C4 (amended): every payload whose shipping_address is shorter than 8
characters is rejected via the `Order`-schema validation, but as an uncaught
model validation error surfaced as HTTP 500 (not a 400-class response) when
the custom-name and quantity checks pass; payloads whose shipping_address has
length at least 8 pass the shipping-address check (no model-validation
rejection ever names it). -/
theorem claim_C4_shipping_rejection (ve : String → Bool) (p : OrderIn) (db : Option Store) :
    (p.shipping_address.length < 8 →
      (create_order ve p db).1 = .error (.http 400 "Custom name must be 1-24 characters.") ∨
      (create_order ve p db).1 = .error (.http 400 "Quantity must be between 1 and 10.") ∨
      (create_order ve p db).1 =
          .error (.modelValidation (orderFieldErrors ve (builtOrder p db))) ∧
        "shipping_address" ∈ orderFieldErrors ve (builtOrder p db) ∧
        responseStatus (.modelValidation (orderFieldErrors ve (builtOrder p db))) = 500) ∧
    (8 ≤ p.shipping_address.length →
      "shipping_address" ∉ orderFieldErrors ve (builtOrder p db)) := by
  constructor
  · intro hship
    by_cases h1 : (pyStrip p.custom_name).length = 0 ∨ 24 < (pyStrip p.custom_name).length
    · left
      rw [create_order_name_fail ve p db h1]
    by_cases h2 : p.quantity < 1 ∨ 10 < p.quantity
    · right; left
      rw [create_order_qty_fail ve p db h1 h2]
    right; right
    have hmem : "shipping_address" ∈ orderFieldErrors ve (builtOrder p db) :=
      (shipping_mem_orderFieldErrors ve _).mpr hship
    have hne : orderFieldErrors ve (builtOrder p db) ≠ [] := by
      intro h0
      rw [h0] at hmem
      simp at hmem
    refine ⟨?_, hmem, rfl⟩
    unfold create_order
    rw [if_neg h1, if_neg h2, mkOrder_eq_err ve _ hne]
  · intro hship
    rw [shipping_mem_orderFieldErrors]
    simp only [builtOrder]
    omega

theorem claim_C4_witness :
    ((create_order sampleEmailValid shortAddressOrder none).1 =
        .error (.http 400 "Custom name must be 1-24 characters.") ∨
      (create_order sampleEmailValid shortAddressOrder none).1 =
        .error (.http 400 "Quantity must be between 1 and 10.") ∨
      (create_order sampleEmailValid shortAddressOrder none).1 =
          .error (.modelValidation
            (orderFieldErrors sampleEmailValid (builtOrder shortAddressOrder none))) ∧
        "shipping_address" ∈
          orderFieldErrors sampleEmailValid (builtOrder shortAddressOrder none) ∧
        responseStatus (.modelValidation
          (orderFieldErrors sampleEmailValid (builtOrder shortAddressOrder none))) = 500) ∧
    "shipping_address" ∉ orderFieldErrors sampleEmailValid (builtOrder sampleOrder none) :=
  ⟨(claim_C4_shipping_rejection sampleEmailValid shortAddressOrder none).1 (by decide),
   (claim_C4_shipping_rejection sampleEmailValid sampleOrder none).2 (by decide)⟩

end MJFig
